import Mathlib

/-!
Verification development for the Sasabot repository
(product catalog validation / resolution and the M-Pesa payment state machine).

The Python sources embedded here are:
  src/utils/simple_db.py           (JSONDatabase: store operations)
  src/realtime/validation_middleware.py  (ProductValidator field validators)
  src/realtime/vendor_tools.py     (catalog operations: add / update / update-stock)
  src/realtime/payment_tools.py    (payment state machine: initiate / complete / cancel)

Modelling conventions:
  - Python strings are `List Char` (`Str`); `str.lower()/.upper()/.strip()` are
    mapped characterwise or via dropWhile on whitespace.
  - Python floats are modelled as `ℚ` (every comparison in the source is against
    an integer threshold, so exact arithmetic is faithful); Python ints are `Int`.
  - The flat-file JSON store is a pure `DB` record; `save_json` is modelled as
    always succeeding (the spec treats the store as an abstract atomic
    single-collection writer), so the `database_error` branches are unreachable
    in the model but kept in the embedded handlers.
  - `datetime.now()` and the random generators (payment outcome, transaction id,
    failure reason, processing delay) are supplied through an explicit `Env`.
  - Human-readable `message` fields of the returned dicts are not modelled;
    the machine-readable fields (`success`, `error_type`, `errors`, `warnings`,
    `data`, `context`, ...) are.
-/

namespace Sasabot

/-- Python strings, modelled as character lists. -/
abbrev Str := List Char

/-- Embeds `str.lower()` (ASCII-faithful). -/
def lower (s : Str) : Str := s.map Char.toLower

/-- Embeds `str.upper()` (ASCII-faithful). -/
def upper (s : Str) : Str := s.map Char.toUpper

/-- Embeds `str.strip()`: drop leading and trailing whitespace. -/
def strip (s : Str) : Str :=
  ((s.dropWhile Char.isWhitespace).reverse.dropWhile Char.isWhitespace).reverse

/-- Embeds `str.split()` with no argument: split on whitespace runs, dropping empties. -/
def split_ws (s : Str) : List Str :=
  (List.splitOnP Char.isWhitespace s).filter (fun w => !w.isEmpty)

/-- Embeds `str.title()` for the (unreachable) fallback branch of `validate_category`. -/
def titleGo : Bool → Str → Str
  | _, [] => []
  | prevAlpha, c :: rest =>
      (if prevAlpha then c.toLower else c.toUpper) :: titleGo c.isAlpha rest

def title (s : Str) : Str := titleGo false s

/-- Embeds `str.isdigit()`: nonempty and all digits. -/
def isdigit (s : Str) : Bool := !s.isEmpty && s.all Char.isDigit

/-- Value of a digit string (used for `int(...)` on ids known to be digits). -/
def digitsToNat (s : Str) : Nat :=
  s.foldl (fun a c => 10 * a + (c.toNat - '0'.toNat)) 0

/-- Embeds `int(s)` restricted to plain digit strings; `none` models a `ValueError`. -/
def parse_int? (s : Str) : Option Nat :=
  if isdigit s then some (digitsToNat s) else none

/-- Embeds `str(n)` for a natural number. -/
def natToStr (n : Nat) : Str := Nat.toDigits 10 n

/-- Embeds `f"{n:03d}"`: zero-pad to width 3. -/
def pad3 (n : Nat) : Str :=
  let d := natToStr n
  List.replicate (3 - d.length) '0' ++ d

/-! ## Data model (the JSON records used by the embedded handlers) -/

structure Business where
  name : Str
deriving DecidableEq, Repr

structure Product where
  id : Str
  business_id : Str
  name : Str
  price : ℚ
  stock : Int
  category : Str
  description : Str
  brand : Str
  warranty : Str
  status : Str
  sku : Str
  created_at : Str := []
  updated_at : Str := []
deriving DecidableEq, Repr

structure Order where
  id : Str
  business_id : Str
  customer_phone : Str
  grand_total : ℚ
  status : Str
  payment_status : Str
  payment_id : Option Str := none
  payment_completed_at : Option Str := none
  created_at : Str := []
  updated_at : Str := []
  confirmed_at : Option Str := none
  shipped_at : Option Str := none
  delivered_at : Option Str := none
deriving DecidableEq, Repr

structure Payment where
  payment_id : Str
  order_id : Str
  customer_phone : Str
  amount : ℚ
  method : Str
  status : Str
  transaction_id : Option Str := none
  initiated_at : Str := []
  completed_at : Option Str := none
  mpesa_phone : Str := []
  merchant_reference : Str := []
  processing_delay : Int := 0
  failure_reason : Option Str := none
deriving DecidableEq, Repr

/-- The flat-file store: the four JSON collections
(`businesses` is a dict keyed by business id, the rest are lists). -/
structure DB where
  businesses : List (Str × Business)
  products : List Product
  orders : List Order
  payments : List Payment
deriving DecidableEq, Repr

/-- Nondeterministic inputs of the source, made explicit:
`datetime.now().isoformat()`, `strftime("%m%d")`,
`MPesaSimulator.simulate_payment_outcome()`, `generate_transaction_id()`,
`random.choice(failure reasons)` and `get_processing_delay()`. -/
structure Env where
  iso : Str
  mmdd : Str
  outcome : Bool
  tx_id : Str
  fail_reason : Str
  processing_delay : Int
deriving DecidableEq, Repr

/-! ## simple_db.py: store operations (class JSONDatabase) -/

/-- Embeds `JSONDatabase.get_business`: dict lookup in the businesses collection. -/
def get_business (s : DB) (business_id : Str) : Option Business :=
  (s.businesses.find? (fun kv => kv.1 == business_id)).map Prod.snd

/-- Embeds `JSONDatabase.get_products_by_business`. -/
def get_products_by_business (s : DB) (business_id : Str) : List Product :=
  s.products.filter (fun p => p.business_id == business_id)

/-- Embeds `JSONDatabase.get_product_by_id`: first product with the given id. -/
def get_product_by_id (s : DB) (product_id : Str) : Option Product :=
  s.products.find? (fun p => p.id == product_id)

/-- Embeds `JSONDatabase.find_product_by_name`: first product (optionally scoped to a
business) whose lowercased name contains the lowercased search string. -/
def find_product_by_name (s : DB) (name : Str) (business_id : Option Str) : Option Product :=
  let products : List Product := match business_id with
    | some bid => s.products.filter (fun p => p.business_id == bid)
    | none => s.products
  products.find? (fun p => decide (List.IsInfix (lower name) (lower p.name)))

/-- Embeds `JSONDatabase.add_product`: generate the next numeric id
(`max(int(id) for digit ids) + 1`), stamp timestamps, append.
The only caller embedded here (`add_product_handler`) never supplies an id,
so the id is always generated. -/
def add_product (s : DB) (product : Product) (env : Env) : DB :=
  let existing_ids := s.products.filterMap
    (fun q => if isdigit q.id then some (digitsToNat q.id) else none)
  let new_id := existing_ids.foldl max 0 + 1
  let p := { product with
    id := natToStr new_id, created_at := env.iso, updated_at := env.iso }
  { s with products := s.products ++ [p] }

/-- Partial update dict passed to `JSONDatabase.update_product`
(`valid_updates` in `update_product_handler`); absent keys are `none`.
A key present with value `None` in Python is modelled as absent. -/
structure Updates where
  name : Option Str := none
  price : Option ℚ := none
  stock : Option Int := none
  category : Option Str := none
  description : Option Str := none
  brand : Option Str := none
  warranty : Option Str := none
deriving DecidableEq, Repr

def Updates.isEmpty (u : Updates) : Bool :=
  u.name.isNone && u.price.isNone && u.stock.isNone && u.category.isNone &&
  u.description.isNone && u.brand.isNone && u.warranty.isNone

/-- Embeds `products[i].update(updates); products[i]['updated_at'] = now`. -/
def applyUpdates (p : Product) (u : Updates) (env : Env) : Product :=
  { p with
    name := u.name.getD p.name
    price := u.price.getD p.price
    stock := u.stock.getD p.stock
    category := u.category.getD p.category
    description := u.description.getD p.description
    brand := u.brand.getD p.brand
    warranty := u.warranty.getD p.warranty
    updated_at := env.iso }

/-- Update the first product with the given id. -/
def updateFirstProduct (ps : List Product) (product_id : Str) (f : Product → Product) :
    List Product :=
  match ps with
  | [] => []
  | p :: rest =>
      if p.id == product_id then f p :: rest
      else p :: updateFirstProduct rest product_id f

/-- Embeds `JSONDatabase.update_product`: update the first matching product and save;
returns `false` (store untouched) when the id is absent. -/
def update_product (s : DB) (product_id : Str) (u : Updates) (env : Env) : Bool × DB :=
  if (s.products.find? (fun p => p.id == product_id)).isSome then
    (true, { s with products :=
        updateFirstProduct s.products product_id (fun p => applyUpdates p u env) })
  else (false, s)

/-- Embeds `JSONDatabase.get_order_by_id`. -/
def get_order_by_id (s : DB) (order_id : Str) : Option Order :=
  s.orders.find? (fun o => o.id == order_id)

/-- Update the first order with the given id. -/
def updateFirstOrder (os : List Order) (order_id : Str) (f : Order → Order) : List Order :=
  match os with
  | [] => []
  | o :: rest =>
      if o.id == order_id then f o :: rest
      else o :: updateFirstOrder rest order_id f

/-- Embeds `JSONDatabase.update_order_status`: set status, stamp `updated_at` and the
status-specific timestamp. (The `False` return on a missing order id is not
observed by any embedded caller, so the function returns only the store.) -/
def update_order_status (s : DB) (order_id : Str) (status : Str) (env : Env) : DB :=
  { s with orders := updateFirstOrder s.orders order_id (fun o =>
      let o := { o with status := status, updated_at := env.iso }
      if status = "confirmed".data then { o with confirmed_at := some env.iso }
      else if status = "shipped".data then { o with shipped_at := some env.iso }
      else if status = "delivered".data then { o with delivered_at := some env.iso }
      else o) }

/-- Summary entry of `get_contextual_product_info`'s `all_products` list. -/
structure ProductSummary where
  id : Str
  name : Str
  price : ℚ
  stock : Int
  category : Str
  brand : Str
deriving DecidableEq, Repr

/-- The context dict built by `JSONDatabase.get_contextual_product_info`.
Python's `list(set(...))` for `categories` has unspecified order; it is
modelled as `dedup` (first occurrences kept). -/
structure ProductContext where
  all_products : List ProductSummary
  user_search_term : Str
  business_name : Str
  business_id : Str
  total_count : Nat
  categories : List Str
deriving DecidableEq, Repr

/-- Embeds `JSONDatabase.get_contextual_product_info`. -/
def get_contextual_product_info (s : DB) (business_id : Str) (user_search : Str) :
    ProductContext :=
  let products := get_products_by_business s business_id
  let business := get_business s business_id
  { all_products := (products.filter (fun p => p.status == "active".data)).map
      (fun p => ⟨p.id, p.name, p.price, p.stock, p.category, p.brand⟩)
    user_search_term := user_search
    business_name := match business with
      | some b => b.name
      | none => "Unknown Business".data
    business_id := business_id
    total_count := products.length
    categories := (products.map (fun p => p.category)).dedup }

/-- Result dict of `JSONDatabase.validate_product_reference`. -/
structure RefResult where
  «exists» : Bool
  product : Option Product
  match_type : Str
  context : Option ProductContext
  search_term : Option Str := none
deriving DecidableEq, Repr

/-- Embeds `JSONDatabase.validate_product_reference`: ID lookup (digits only, scoped to
the business), then case-insensitive substring name lookup, then rich context. -/
def validate_product_reference (s : DB) (product_identifier : Str) (business_id : Str) :
    RefResult :=
  let byId : Option Product :=
    if isdigit product_identifier then
      match get_product_by_id s product_identifier with
      | some p => if p.business_id = business_id then some p else none
      | none => none
    else none
  let product : Option Product :=
    match byId with
    | some p => some p
    | none => find_product_by_name s product_identifier (some business_id)
  match product with
  | some p =>
      { «exists» := true, product := some p, match_type := "exact".data, context := none }
  | none =>
      { «exists» := false, product := none, match_type := "none".data
        context := some (get_contextual_product_info s business_id product_identifier)
        search_term := some product_identifier }

/-! ## validation_middleware.py: class ProductValidator
(only the validators the claims are about: price and category) -/

namespace ProductValidator

def VALID_CATEGORIES : List Str :=
  ["Electronics".data, "Accessories".data, "Storage".data, "Audio".data,
   "Mobile".data, "Computing".data, "Gaming".data, "Cameras".data,
   "Wearables".data, "Home & Garden".data]

/-- Result dict of `ProductValidator.validate_price`. In the source the
`"warning"` key holds the literal `True` in the over-10M branch and a string in
the under-50 branch; the two usages are split into `warning_flag` and
`warning`. -/
structure PriceResult where
  valid : Bool
  value : Option ℚ := none
  error : Option Str := none
  warning : Option Str := none
  warning_flag : Bool := false
deriving DecidableEq, Repr

/-- Embeds `ProductValidator.validate_price`; `none` models an input that
`float(...)` cannot coerce. -/
def validate_price (price : Option ℚ) : PriceResult :=
  match price with
  | none => { valid := false, error := some "Price must be a valid number".data }
  | some p =>
    if p ≤ 0 then
      { valid := false, error := some "Price must be greater than 0".data }
    else if p > 10000000 then
      { valid := false
        error := some
          "Price seems unrealistically high (over 10 million KSh). Please confirm.".data
        warning_flag := true }
    else if p < 50 then
      { valid := true, value := some p
        warning := some "Price seems very low. Please confirm this is correct.".data }
    else
      { valid := true, value := some p }

/-- Result dict of `ProductValidator.validate_category`. -/
structure CategoryResult where
  valid : Bool
  value : Option Str := none
  error : Option Str := none
  suggestions : Option (List Str) := none
deriving DecidableEq, Repr

/-- Embeds `ProductValidator.validate_category`: required; case-insensitive match
against `VALID_CATEGORIES`; returns the canonical capitalization; unknown
category is a hard error carrying the list of valid options. -/
def validate_category (category : Str) : CategoryResult :=
  if category = [] then
    { valid := false, error := some "Category is required".data }
  else
    let c := strip category
    if (VALID_CATEGORIES.map lower).contains (lower c) then
      match VALID_CATEGORIES.find? (fun v => lower v == lower c) with
      | some v => { valid := true, value := some v }
      | none => { valid := true, value := some (title c) }
    else
      { valid := false
        error := some ("Invalid category '".data ++ c ++ "'".data)
        suggestions := some VALID_CATEGORIES }

end ProductValidator

/-! ## vendor_tools.py: validate_product_data and the catalog handlers -/

/-- The category list local to `vendor_tools.validate_product_data`
(shorter than the middleware's `VALID_CATEGORIES`). -/
def valid_categories : List Str :=
  ["Electronics".data, "Accessories".data, "Storage".data, "Audio".data,
   "Mobile".data, "Computing".data, "Gaming".data]

/-- The `validated_data` dict built by `validate_product_data`. -/
structure ValidatedProduct where
  name : Str
  price : ℚ
  stock : Int
  category : Str
  description : Str
  brand : Str
  warranty : Str
deriving DecidableEq, Repr

/-- Result dict of `vendor_tools.validate_product_data`. -/
structure ValidationResult where
  valid : Bool
  errors : List Str
  warnings : List Str
  validated_data : ValidatedProduct
deriving DecidableEq, Repr

/-- The category warning message of `validate_product_data`:
`f"Category '{category}' is not in standard list: {', '.join(valid_categories)}"`. -/
def category_warning (category : Str) : Str :=
  "Category '".data ++ category ++ "' is not in standard list: ".data ++
    List.intercalate ", ".data valid_categories

/-- Embeds `vendor_tools.validate_product_data`. Inputs arrive already typed
(`price : ℚ`, `stock : Int`), so the `float(...)`/`int(...)` coercions are
identities and their `except` branches are unreachable; likewise
`float(price) if price else 0` is the identity on rationals. -/
def validate_product_data (name : Str) (price : ℚ) (stock : Int)
    (category : Str := []) (description : Str := [])
    (brand : Str := []) (warranty : Str := []) : ValidationResult :=
  let name_errors : List Str :=
    if name = [] ∨ strip name = [] then ["Product name is required".data]
    else if (strip name).length < 3 then
      ["Product name must be at least 3 characters long".data]
    else if (strip name).length > 100 then
      ["Product name must be less than 100 characters".data]
    else []
  let price_errors : List Str :=
    if price ≤ 0 then ["Price must be greater than 0".data] else []
  let price_warnings : List Str :=
    if price ≤ 0 then []
    else if price > 10000000 then ["Price seems very high, please confirm".data]
    else []
  let stock_errors : List Str :=
    if stock < 0 then ["Stock cannot be negative".data] else []
  let stock_warnings : List Str :=
    if stock < 0 then []
    else if stock = 0 then ["Adding product with zero stock".data]
    else if stock > 10000 then
      ["Stock quantity seems very high, please confirm".data]
    else []
  let category_errors : List Str :=
    if category = [] ∨ strip category = [] then ["Category is required".data] else []
  let category_warnings : List Str :=
    if category = [] ∨ strip category = [] then []
    else if strip category ∈ valid_categories then []
    else [category_warning category]
  let description_warnings : List Str :=
    if description = [] ∨ strip description = [] then
      ["Product description is empty - consider adding details for better customer experience".data]
    else if (strip description).length < 10 then
      ["Product description is very short - consider adding more details".data]
    else []
  let brand_warnings : List Str :=
    if brand = [] ∨ strip brand = [] then
      ["Brand not specified - using 'Generic'".data]
    else []
  let warranty_warnings : List Str :=
    if warranty = [] ∨ strip warranty = [] then
      ["Warranty period not specified - using '3 months'".data]
    else []
  let errors := name_errors ++ price_errors ++ stock_errors ++ category_errors
  let warnings := price_warnings ++ stock_warnings ++ category_warnings ++
    description_warnings ++ brand_warnings ++ warranty_warnings
  { valid := errors.isEmpty
    errors := errors
    warnings := warnings
    validated_data :=
      { name := if name = [] then [] else strip name
        price := price
        stock := stock
        category := if category = [] then "Electronics".data else strip category
        description := if description = [] then [] else strip description
        brand := if brand = [] ∨ strip brand = [] then "Generic".data else strip brand
        warranty := if warranty = [] ∨ strip warranty = [] then "3 months".data
          else strip warranty } }

/-- Result dict of `add_product_handler` (message text omitted). -/
structure AddRes where
  success : Bool
  error_type : Option Str := none
  validation_errors : List Str := []
  warnings : List Str := []
  existing_product : Option Product := none
  data : Option Product := none
deriving DecidableEq, Repr

/-- Embeds `vendor_tools.add_product_handler`: business existence, comprehensive
validation, duplicate-name rejection, SKU generation, persist.
`db.save_json` is modelled as always succeeding, so the `database_error`
branch is unreachable here. -/
def add_product_handler (s : DB) (env : Env) (business_id : Str) (name : Str)
    (price : ℚ) (stock : Int) (category : Str) (description : Str)
    (brand : Str) (warranty : Str) : AddRes × DB :=
  match get_business s business_id with
  | none => ({ success := false, error_type := some "business_not_found".data }, s)
  | some _ =>
    let validation := validate_product_data name price stock category description
      brand warranty
    if !validation.valid then
      ({ success := false, error_type := some "validation_error".data
         validation_errors := validation.errors }, s)
    else
      let vd := validation.validated_data
      match find_product_by_name s vd.name (some business_id) with
      | some existing =>
          ({ success := false, error_type := some "duplicate_product".data
             existing_product := some existing }, s)
      | none =>
          -- sku = ''.join(name.upper().split()[:2])[:6] + "-" + now.strftime("%m%d")
          let name_part := (List.flatten ((split_ws (upper vd.name)).take 2)).take 6
          let sku := name_part ++ '-' :: env.mmdd
          let new_product : Product :=
            { id := [], business_id := business_id, name := vd.name
              price := vd.price, stock := vd.stock, category := vd.category
              description := vd.description, sku := sku, brand := vd.brand
              warranty := vd.warranty, status := "active".data }
          let s1 := add_product s new_product env
          let saved := find_product_by_name s1 vd.name (some business_id)
          ({ success := true, warnings := validation.warnings, data := saved }, s1)

/-- Result dict of `update_product_handler` / `update_stock_handler`
(message text and the LLM `suggestion_prompt` strings omitted). -/
structure UpdRes where
  success : Bool
  error_type : Option Str := none
  validation_errors : List Str := []
  context : Option ProductContext := none
  data : Option Product := none
deriving DecidableEq, Repr

/-- Name-field validation inlined in `update_product_handler`
(vendor_tools.py lines 324-330). -/
def validate_update_name (o : Option Str) : Option Str × List Str :=
  match o with
  | none => (none, [])
  | some nm =>
      if nm = [] ∨ strip nm = [] then (none, ["Product name cannot be empty".data])
      else if (strip nm).length < 3 then
        (none, ["Product name must be at least 3 characters".data])
      else (some (strip nm), [])

/-- Price-field validation inlined in `update_product_handler`
(vendor_tools.py lines 332-340); the typed input makes the
`float(...)` except-branch unreachable. -/
def validate_update_price (o : Option ℚ) : Option ℚ × List Str :=
  match o with
  | none => (none, [])
  | some pr =>
      if pr ≤ 0 then (none, ["Price must be greater than 0".data])
      else (some pr, [])

/-- Stock-field validation inlined in `update_product_handler`
(vendor_tools.py lines 342-350). -/
def validate_update_stock (o : Option Int) : Option Int × List Str :=
  match o with
  | none => (none, [])
  | some st =>
      if st < 0 then (none, ["Stock cannot be negative".data])
      else (some st, [])

/-- The `valid_updates` dict assembled by `update_product_handler`
(`str(updates[field]).strip()` for category/description/brand/warranty). -/
def valid_updates_of (updates : Updates) : Updates :=
  { name := (validate_update_name updates.name).1
    price := (validate_update_price updates.price).1
    stock := (validate_update_stock updates.stock).1
    category := updates.category.map strip
    description := updates.description.map strip
    brand := updates.brand.map strip
    warranty := updates.warranty.map strip }

/-- The `validation_errors` list assembled by `update_product_handler`. -/
def update_validation_errors (updates : Updates) : List Str :=
  (validate_update_name updates.name).2 ++ (validate_update_price updates.price).2
    ++ (validate_update_stock updates.stock).2

/-- Embeds `vendor_tools.update_product_handler`. The source branches on
`validation_result["exists"]`; by construction of
`validate_product_reference`, `exists` is `false` exactly when `product` is
absent, so the branch is taken on `vr.product` here. -/
def update_product_handler (s : DB) (env : Env) (business_id : Str)
    (product_identifier : Str) (updates : Updates) : UpdRes × DB :=
  let vr := validate_product_reference s product_identifier business_id
  match vr.product with
  | none =>
      ({ success := false, error_type := some "product_not_found".data
         context := vr.context }, s)
  | some product =>
      let valid_updates := valid_updates_of updates
      let validation_errors := update_validation_errors updates
      if !validation_errors.isEmpty then
        ({ success := false, error_type := some "validation_error".data
           validation_errors := validation_errors }, s)
      else if valid_updates.isEmpty then
        ({ success := false, error_type := some "no_updates".data
           data := some product }, s)
      else
        let res := update_product s product.id valid_updates env
        if res.1 then
          ({ success := true, data := get_product_by_id res.2 product.id }, res.2)
        else
          ({ success := false, error_type := some "database_error".data }, res.2)

/-- Embeds `vendor_tools.update_stock_handler`: reject negative stock up front, then
delegate to `update_product_handler` with only the stock field. The typed
`Int` input makes the `int(...)` except-branch unreachable. -/
def update_stock_handler (s : DB) (env : Env) (business_id : Str)
    (product_identifier : Str) (new_stock : Int) : UpdRes × DB :=
  if new_stock < 0 then
    ({ success := false, error_type := some "validation_error".data }, s)
  else
    update_product_handler s env business_id product_identifier
      { stock := some new_stock }

/-! ## payment_tools.py: phone validation and the M-Pesa payment handlers -/

namespace MPesaSimulator

/-- Embeds `MPesaSimulator.validate_kenyan_phone`: strip spaces and hyphens, then
normalize by prefix (`07...`/`01...` → `+254...`, `254...` → `+254...`,
`+254...` passes through); anything else raises, modelled as `.error`. -/
def validate_kenyan_phone (phone : Str) : Except Str Str :=
  if phone = [] then .error "Phone number is required".data
  else
    let p := phone.filter (fun c => !(c == ' ' || c == '-'))
    if p.take 2 = "07".data ∨ p.take 2 = "01".data then
      .ok ("+254".data ++ p.drop 1)
    else if p.take 3 = "254".data then .ok ('+' :: p)
    else if p.take 4 = "+254".data then .ok p
    else .error "Invalid Kenyan phone number format".data

end MPesaSimulator

/-- Result of `validate_payment_request`, rendered as a sum:
`invalid` carries `error_type` (and, for `already_paid`, the order's existing
payment reference); `valid` carries the order and the normalized phone. -/
inductive PayCheck where
  | invalid (error_type : Str) (existing_payment : Option Str)
  | valid (order : Order) (normalized_phone : Str)
deriving DecidableEq, Repr

/-- Embeds `payment_tools.validate_payment_request`: order exists → not already paid →
phone normalizes → phone matches the order's stored phone (when non-empty). -/
def validate_payment_request (s : DB) (order_id : Str) (customer_phone : Str) :
    PayCheck :=
  match get_order_by_id s order_id with
  | none => .invalid "order_not_found".data none
  | some order =>
    if order.payment_status = "completed".data then
      .invalid "already_paid".data order.payment_id
    else
      match MPesaSimulator.validate_kenyan_phone customer_phone with
      | .error _ => .invalid "invalid_phone".data none
      | .ok normalized_phone =>
        if order.customer_phone ≠ [] ∧ order.customer_phone ≠ normalized_phone then
          .invalid "phone_mismatch".data none
        else .valid order normalized_phone

/-- Result dict of `initiate_mpesa_payment_handler` (message text and the
display-only `data` payload omitted; `existing_payment` is the field the
`already_paid` branch forwards from the validation data). -/
structure InitRes where
  success : Bool
  error_type : Option Str := none
  payment_id : Option Str := none
  existing_payment : Option Str := none
  processing_delay : Option Int := none
deriving DecidableEq, Repr

/-- Embeds `int(p['payment_id'][3:])` over the `PAY`-prefixed payments; `none` models
the `ValueError` (caught by the handler's outer `except` as `system_error`)
when some `PAY`-prefixed id has a non-numeric suffix. -/
def existing_pay_ids : List Payment → Option (List Nat)
  | [] => some []
  | p :: rest =>
      if "PAY".data.isPrefixOf p.payment_id then
        match parse_int? (p.payment_id.drop 3), existing_pay_ids rest with
        | some n, some ns => some (n :: ns)
        | _, _ => none
      else existing_pay_ids rest

/-- Embeds `payment_tools.initiate_mpesa_payment_handler`. The read-only business
lookup for the display message is omitted; `db.save_json` is modelled as
always succeeding, so the `database_error` branch is unreachable. -/
def initiate_mpesa_payment_handler (s : DB) (env : Env) (order_id : Str)
    (customer_phone : Option Str) : InitRes × DB :=
  -- `if not customer_phone:` fall back to the order's phone
  let phone0 : Str := customer_phone.getD []
  let phone1 : Str :=
    if phone0 = [] then
      match get_order_by_id s order_id with
      | some o => o.customer_phone
      | none => phone0
    else phone0
  if phone1 = [] then
    ({ success := false, error_type := some "missing_phone".data }, s)
  else
    match validate_payment_request s order_id phone1 with
    | .invalid et ep =>
        if et = "already_paid".data then
          ({ success := false, error_type := some "already_paid".data
             existing_payment := ep }, s)
        else
          ({ success := false, error_type := some et }, s)
    | .valid order normalized_phone =>
        match existing_pay_ids s.payments with
        | none => ({ success := false, error_type := some "system_error".data }, s)
        | some ids =>
            let new_payment_number := ids.foldl max 0 + 1
            let payment_id := "PAY".data ++ pad3 new_payment_number
            let payment_record : Payment :=
              { payment_id := payment_id, order_id := order_id
                customer_phone := normalized_phone, amount := order.grand_total
                method := "mpesa".data, status := "pending".data
                transaction_id := none, initiated_at := env.iso
                completed_at := none, mpesa_phone := normalized_phone
                merchant_reference := order_id
                processing_delay := env.processing_delay }
            let s1 := { s with payments := s.payments ++ [payment_record] }
            let s2 := update_order_status s1 order_id "payment_pending".data env
            ({ success := true, payment_id := some payment_id
               processing_delay := some env.processing_delay }, s2)

/-- First payment with the given id (the handlers' linear search). -/
def findPayment (s : DB) (payment_id : Str) : Option Payment :=
  s.payments.find? (fun p => p.payment_id == payment_id)

/-- Update the first payment with the given id. -/
def updateFirstPayment (ps : List Payment) (payment_id : Str)
    (f : Payment → Payment) : List Payment :=
  match ps with
  | [] => []
  | p :: rest =>
      if p.payment_id == payment_id then f p :: rest
      else p :: updateFirstPayment rest payment_id f

/-- Result dict of `complete_mpesa_payment_handler` (message text omitted). -/
structure CompleteRes where
  success : Bool
  error_type : Option Str := none
  payment_success : Option Bool := none
  transaction_id : Option Str := none
  data : Option Payment := none
deriving DecidableEq, Repr

/-- Embeds `payment_tools.complete_mpesa_payment_handler`: reject unless the payment
is `pending`/`processing`; otherwise settle it (outcome from `force_success`
or the simulated draw) and, on success, cascade `confirmed`/`completed` onto
the order. -/
def complete_mpesa_payment_handler (s : DB) (env : Env) (payment_id : Str)
    (force_success : Option Bool) : CompleteRes × DB :=
  match findPayment s payment_id with
  | none =>
      ({ success := false, error_type := some "payment_not_found".data }, s)
  | some payment =>
    if payment.status ∉ ["pending".data, "processing".data] then
      ({ success := false, error_type := some "invalid_state".data }, s)
    else
      let succ : Bool := force_success.getD env.outcome
      if succ then
        let s1 := { s with payments := (updateFirstPayment s.payments payment_id
          (fun q => { q with status := "completed".data
                             transaction_id := some env.tx_id
                             completed_at := some env.iso })) }
        let s2 :=
          match get_order_by_id s1 payment.order_id with
          | some _ =>
              let s2a := update_order_status s1 payment.order_id "confirmed".data env
              { s2a with orders := (updateFirstOrder s2a.orders payment.order_id
                  (fun o => { o with payment_status := "completed".data
                                     payment_id := some payment_id
                                     payment_completed_at := some env.iso })) }
          | none => s1
        ({ success := true, payment_success := some true
           transaction_id := some env.tx_id, data := findPayment s2 payment_id }, s2)
      else
        let s1 := { s with payments := (updateFirstPayment s.payments payment_id
          (fun q => { q with status := "failed".data
                             completed_at := some env.iso
                             failure_reason := some env.fail_reason })) }
        ({ success := true, payment_success := some false
           transaction_id := none, data := findPayment s1 payment_id }, s1)

/-- Result dict of `cancel_payment_handler` (message text omitted). -/
structure CancelRes where
  success : Bool
  error_type : Option Str := none
  data : Option Payment := none
deriving DecidableEq, Repr

/-- Embeds `payment_tools.cancel_payment_handler`: only a `pending`/`processing`
payment can be cancelled. -/
def cancel_payment_handler (s : DB) (env : Env) (payment_id : Str) :
    CancelRes × DB :=
  match findPayment s payment_id with
  | none =>
      ({ success := false, error_type := some "payment_not_found".data }, s)
  | some payment =>
    if payment.status ∉ ["pending".data, "processing".data] then
      ({ success := false, error_type := some "cannot_cancel".data }, s)
    else
      let s1 := { s with payments := (updateFirstPayment s.payments payment_id
        (fun q => { q with status := "cancelled".data
                           completed_at := some env.iso
                           failure_reason := some "Cancelled by user".data })) }
      ({ success := true, data := findPayment s1 payment_id }, s1)

/-! ## Concrete fixtures for witnesses and counterexamples -/

/-- A fixed environment (timestamps and simulated gateway outputs). -/
def env0 : Env :=
  { iso := "2025-01-01T00:00:00".data, mmdd := "0101".data, outcome := true
    tx_id := "AB12CD34EF".data, fail_reason := "Network timeout".data
    processing_delay := 20 }

def biz1 : Business := ⟨"Mama Jane Electronics".data⟩

/-- A completed payment on ORD001. -/
def pay1 : Payment :=
  { payment_id := "PAY001".data, order_id := "ORD001".data
    customer_phone := "+254712345678".data, amount := 35000
    method := "mpesa".data, status := "completed".data
    transaction_id := some "QQ11WW22EE".data
    initiated_at := "2025-01-01T00:00:00".data
    completed_at := some "2025-01-01T00:01:00".data
    mpesa_phone := "+254712345678".data
    merchant_reference := "ORD001".data, processing_delay := 20 }

/-- An order that is already paid. -/
def ord1 : Order :=
  { id := "ORD001".data, business_id := "b1".data
    customer_phone := "+254712345678".data, grand_total := 35000
    status := "confirmed".data, payment_status := "completed".data
    payment_id := some "PAY001".data }

/-- An order still awaiting payment, with a stored customer phone. -/
def ord2 : Order :=
  { id := "ORD002".data, business_id := "b1".data
    customer_phone := "+254700000001".data, grand_total := 5000
    status := "pending".data, payment_status := "pending".data }

/-- A product of business `b1`. -/
def prod1 : Product :=
  { id := "1".data, business_id := "b1".data, name := "USB-C Cable 1m".data
    price := 800, stock := 12, category := "Accessories".data
    description := "Durable braided charging cable".data, brand := "Acme".data
    warranty := "3 months".data, status := "active".data, sku := "USB-0101".data }

/-- The all-purpose witness store. -/
def db0 : DB :=
  { businesses := [("b1".data, biz1)]
    products := [prod1]
    orders := [ord1, ord2]
    payments := [pay1] }

/-- Cross-business fixture for C5: the identifier `"42"` is the id of a
product of business `b2`, while business `b1` owns a product whose *name*
contains `"42"`. -/
def prod42other : Product :=
  { id := "42".data, business_id := "b2".data, name := "Other Thing".data
    price := 100, stock := 1, category := "Audio".data
    description := "Loudspeaker".data, brand := "Acme".data
    warranty := "12 months".data, status := "active".data, sku := "OT-0101".data }

def prodModel42 : Product :=
  { id := "7".data, business_id := "b1".data, name := "Model 42".data
    price := 100, stock := 1, category := "Audio".data
    description := "Compact radio".data, brand := "Acme".data
    warranty := "12 months".data, status := "active".data, sku := "MO-0101".data }

/-- A second product of business `b2` whose id digits appear in no `b1`
product name. -/
def prod9other : Product :=
  { id := "9".data, business_id := "b2".data, name := "Headset".data
    price := 1500, stock := 3, category := "Audio".data
    description := "Wired headset".data, brand := "Acme".data
    warranty := "6 months".data, status := "active".data, sku := "HS-0101".data }

def dbC5 : DB :=
  { businesses := [("b1".data, biz1), ("b2".data, ⟨"Biz Two".data⟩)]
    products := [prod42other, prodModel42, prod9other]
    orders := [], payments := [] }

/-- Empty-catalog store with one business, for the add-product fixtures. -/
def dbAdd : DB :=
  { businesses := [("b1".data, biz1)], products := [], orders := [], payments := [] }

/-! ## Shared helper lemmas -/

/-- Membership after an in-place first-match update: every element is either an
old element or the image of an old element. -/
theorem mem_updateFirstProduct {ps : List Product} {pid : Str} {f : Product → Product}
    {p : Product} (hp : p ∈ updateFirstProduct ps pid f) :
    p ∈ ps ∨ ∃ q ∈ ps, p = f q := by
  induction ps with
  | nil => simp [updateFirstProduct] at hp
  | cons a rest ih =>
      rw [updateFirstProduct] at hp
      by_cases ha : a.id == pid
      · rw [if_pos ha] at hp
        rcases List.mem_cons.mp hp with h | h
        · exact Or.inr ⟨a, List.mem_cons_self .., h⟩
        · exact Or.inl (List.mem_cons_of_mem _ h)
      · rw [if_neg ha] at hp
        rcases List.mem_cons.mp hp with h | h
        · exact Or.inl (h ▸ List.mem_cons_self ..)
        · rcases ih h with h' | ⟨q, hq, hfq⟩
          · exact Or.inl (List.mem_cons_of_mem _ h')
          · exact Or.inr ⟨q, List.mem_cons_of_mem _ hq, hfq⟩

/-- Embeds `validate_product_data` exposes its validity flag as emptiness of `errors`. -/
theorem validate_product_data_valid_eq (n : Str) (pr : ℚ) (st : Int)
    (c d br w : Str) :
    (validate_product_data n pr st c d br w).valid
      = (validate_product_data n pr st c d br w).errors.isEmpty := rfl

/-- A record passing `validate_product_data` has non-negative stock. -/
theorem stock_nonneg_of_valid {n : Str} {pr : ℚ} {st : Int} {c d br w : Str}
    (h : (validate_product_data n pr st c d br w).valid = true) : 0 ≤ st := by
  by_contra hneg
  push_neg at hneg
  simp only [validate_product_data, List.isEmpty_iff, List.append_eq_nil] at h
  rw [if_pos hneg] at h
  simp at h

/-- The stock update accepted by `update_product_handler` is non-negative. -/
theorem validate_update_stock_nonneg {u : Option Int} {m : Int}
    (h : (validate_update_stock u).1 = some m) : 0 ≤ m := by
  match u with
  | none => simp [validate_update_stock] at h
  | some st =>
      rw [validate_update_stock] at h
      by_cases hst : st < 0
      · rw [if_pos hst] at h; simp at h
      · rw [if_neg hst] at h
        simp at h
        omega

/-! ## C1: payment terminal-state immutability -/

/-- C1. For every stored payment whose status is `completed`, `failed`, or
`cancelled`, `complete_mpesa_payment_handler` returns
`error_type="invalid_state"`, `cancel_payment_handler` returns
`error_type="cannot_cancel"`, and in both cases the handlers return
`success=False` and leave the store (hence the payment record) unchanged. -/
theorem C1_payment_terminal_state_immutable (s : DB) (env : Env) (pid : Str)
    (p : Payment) (force : Option Bool)
    (hfind : findPayment s pid = some p)
    (hterm : p.status = "completed".data ∨ p.status = "failed".data ∨
             p.status = "cancelled".data) :
    (complete_mpesa_payment_handler s env pid force).1.success = false ∧
    (complete_mpesa_payment_handler s env pid force).1.error_type
      = some "invalid_state".data ∧
    (complete_mpesa_payment_handler s env pid force).2 = s ∧
    (cancel_payment_handler s env pid).1.success = false ∧
    (cancel_payment_handler s env pid).1.error_type = some "cannot_cancel".data ∧
    (cancel_payment_handler s env pid).2 = s := by
  have hnp : p.status ∉ ["pending".data, "processing".data] := by
    rcases hterm with h | h | h <;> rw [h] <;> decide
  refine ⟨?_, ?_, ?_, ?_, ?_, ?_⟩ <;>
    simp [complete_mpesa_payment_handler, cancel_payment_handler, hfind, hnp]

/-- Witness for C1 at the concrete store `db0` (payment `PAY001` is
`completed`). -/
theorem C1_witness :
    (complete_mpesa_payment_handler db0 env0 "PAY001".data none).1.success = false ∧
    (complete_mpesa_payment_handler db0 env0 "PAY001".data none).1.error_type
      = some "invalid_state".data ∧
    (complete_mpesa_payment_handler db0 env0 "PAY001".data none).2 = db0 ∧
    (cancel_payment_handler db0 env0 "PAY001".data).1.success = false ∧
    (cancel_payment_handler db0 env0 "PAY001".data).1.error_type
      = some "cannot_cancel".data ∧
    (cancel_payment_handler db0 env0 "PAY001".data).2 = db0 :=
  C1_payment_terminal_state_immutable db0 env0 "PAY001".data pay1 none
    (by rfl) (Or.inl (by rfl))

/-! ## C2: payment initiation idempotency guard -/

/-- C2. Initiating a payment on an order whose `payment_status` is already
`completed` (with a usable phone: either one is supplied, or the order stores
one) returns `success=False` with `error_type="already_paid"` carrying the
order's existing payment reference, and leaves the store (in particular the
payments collection) unchanged. -/
theorem C2_initiate_already_paid (s : DB) (env : Env) (oid : Str) (o : Order)
    (phoneArg : Option Str)
    (horder : get_order_by_id s oid = some o)
    (hpaid : o.payment_status = "completed".data)
    (hphone : phoneArg.getD [] ≠ [] ∨ o.customer_phone ≠ []) :
    (initiate_mpesa_payment_handler s env oid phoneArg).1.success = false ∧
    (initiate_mpesa_payment_handler s env oid phoneArg).1.error_type
      = some "already_paid".data ∧
    (initiate_mpesa_payment_handler s env oid phoneArg).1.existing_payment
      = o.payment_id ∧
    (initiate_mpesa_payment_handler s env oid phoneArg).2 = s ∧
    (initiate_mpesa_payment_handler s env oid phoneArg).2.payments = s.payments := by
  rcases hc : phoneArg.getD [] with _ | ⟨a, ph⟩
  · -- no usable supplied phone: fall back to the order's phone
    have hop : o.customer_phone ≠ [] := by
      rcases hphone with h | h
      · exact absurd hc h
      · exact h
    refine ⟨?_, ?_, ?_, ?_, ?_⟩ <;>
      simp [initiate_mpesa_payment_handler, validate_payment_request, horder,
        hpaid, hc, hop]
  · -- a non-empty phone was supplied
    refine ⟨?_, ?_, ?_, ?_, ?_⟩ <;>
      simp [initiate_mpesa_payment_handler, validate_payment_request, horder,
        hpaid, hc]

/-- Witness for C2 at the concrete store `db0` (order `ORD001` is paid). -/
theorem C2_witness :
    (initiate_mpesa_payment_handler db0 env0 "ORD001".data
        (some "0712345678".data)).1.success = false ∧
    (initiate_mpesa_payment_handler db0 env0 "ORD001".data
        (some "0712345678".data)).1.error_type = some "already_paid".data ∧
    (initiate_mpesa_payment_handler db0 env0 "ORD001".data
        (some "0712345678".data)).1.existing_payment = ord1.payment_id ∧
    (initiate_mpesa_payment_handler db0 env0 "ORD001".data
        (some "0712345678".data)).2 = db0 ∧
    (initiate_mpesa_payment_handler db0 env0 "ORD001".data
        (some "0712345678".data)).2.payments = db0.payments :=
  C2_initiate_already_paid db0 env0 "ORD001".data ord1 (some "0712345678".data)
    (by rfl) (by rfl) (Or.inl (by decide))

/-! ## C10: phone mismatch guard at payment initiation -/

/-- C10. If the referenced order exists, is not already paid, and stores a
non-empty `customer_phone` different from the normalization of the supplied
phone, then `initiate_mpesa_payment_handler` returns `success=False` with
`error_type="phone_mismatch"` and creates no payment record (the store is
unchanged). -/
theorem C10_initiate_phone_mismatch (s : DB) (env : Env) (oid : Str) (o : Order)
    (ph nph : Str)
    (horder : get_order_by_id s oid = some o)
    (hnotpaid : o.payment_status ≠ "completed".data)
    (hnorm : MPesaSimulator.validate_kenyan_phone ph = .ok nph)
    (hop : o.customer_phone ≠ [])
    (hmm : o.customer_phone ≠ nph) :
    (initiate_mpesa_payment_handler s env oid (some ph)).1.success = false ∧
    (initiate_mpesa_payment_handler s env oid (some ph)).1.error_type
      = some "phone_mismatch".data ∧
    (initiate_mpesa_payment_handler s env oid (some ph)).2 = s ∧
    (initiate_mpesa_payment_handler s env oid (some ph)).2.payments
      = s.payments := by
  have hph : ph ≠ [] := by
    intro h
    rw [h] at hnorm
    simp [MPesaSimulator.validate_kenyan_phone] at hnorm
  refine ⟨?_, ?_, ?_, ?_⟩ <;>
    simp [initiate_mpesa_payment_handler, validate_payment_request, horder,
      hnotpaid, hnorm, hph, hop, hmm]

/-- Witness for C10: order `ORD002` stores `+254700000001`, the supplied phone
normalizes to `+254712345678`. -/
theorem C10_witness :
    (initiate_mpesa_payment_handler db0 env0 "ORD002".data
        (some "0712345678".data)).1.success = false ∧
    (initiate_mpesa_payment_handler db0 env0 "ORD002".data
        (some "0712345678".data)).1.error_type = some "phone_mismatch".data ∧
    (initiate_mpesa_payment_handler db0 env0 "ORD002".data
        (some "0712345678".data)).2 = db0 ∧
    (initiate_mpesa_payment_handler db0 env0 "ORD002".data
        (some "0712345678".data)).2.payments = db0.payments :=
  C10_initiate_phone_mismatch db0 env0 "ORD002".data ord2 "0712345678".data
    "+254712345678".data (by rfl) (by decide) (by rfl) (by decide) (by decide)

/-! ## C8: failed add-product validation persists nothing -/

/-- C8. An add-product request (against an existing business) that fails
required-field validation returns `success=False` with
`error_type="validation_error"` and a non-empty validation-error list, and
leaves the products collection unchanged. -/
theorem C8_invalid_add_not_persisted (s : DB) (env : Env) (bid : Str)
    (b : Business) (n : Str) (pr : ℚ) (st : Int) (c d br w : Str)
    (hbiz : get_business s bid = some b)
    (hinvalid : (validate_product_data n pr st c d br w).valid = false) :
    (add_product_handler s env bid n pr st c d br w).1.success = false ∧
    (add_product_handler s env bid n pr st c d br w).1.error_type
      = some "validation_error".data ∧
    (add_product_handler s env bid n pr st c d br w).1.validation_errors ≠ [] ∧
    (add_product_handler s env bid n pr st c d br w).2 = s ∧
    (add_product_handler s env bid n pr st c d br w).2.products = s.products := by
  have herr : (validate_product_data n pr st c d br w).errors ≠ [] := by
    intro h
    rw [validate_product_data_valid_eq, h] at hinvalid
    simp at hinvalid
  refine ⟨?_, ?_, ?_, ?_, ?_⟩ <;>
    simp [add_product_handler, hbiz, hinvalid, herr]

/-- Witness for C8: adding a product with an empty name and negative price
fails validation and persists nothing. -/
theorem C8_witness :
    (add_product_handler dbAdd env0 "b1".data [] (-100) 5 "Electronics".data
        "Some description here".data "Acme".data "12 months".data).1.success
      = false ∧
    (add_product_handler dbAdd env0 "b1".data [] (-100) 5 "Electronics".data
        "Some description here".data "Acme".data "12 months".data).1.error_type
      = some "validation_error".data ∧
    (add_product_handler dbAdd env0 "b1".data [] (-100) 5 "Electronics".data
        "Some description here".data "Acme".data
        "12 months".data).1.validation_errors ≠ [] ∧
    (add_product_handler dbAdd env0 "b1".data [] (-100) 5 "Electronics".data
        "Some description here".data "Acme".data "12 months".data).2 = dbAdd ∧
    (add_product_handler dbAdd env0 "b1".data [] (-100) 5 "Electronics".data
        "Some description here".data "Acme".data "12 months".data).2.products
      = dbAdd.products :=
  C8_invalid_add_not_persisted dbAdd env0 "b1".data biz1 [] (-100) 5
    "Electronics".data "Some description here".data "Acme".data "12 months".data
    (by rfl) (by decide)

/-! ## C9: duplicate product names rejected at creation -/

/-- C9. Creating a product whose (validated) name is an exact case-insensitive
duplicate of an existing product's name under the same business returns
`success=False` with `error_type="duplicate_product"` carrying an existing
product of that business (whose lowercased name contains the new name), and
leaves the store unchanged — in particular, if exactly one product with that
case-insensitive name existed before, exactly one exists after. -/
theorem C9_duplicate_product_rejected (s : DB) (env : Env) (bid : Str)
    (b : Business) (n : Str) (pr : ℚ) (st : Int) (c d br w : Str) (ex : Product)
    (hbiz : get_business s bid = some b)
    (hvalid : (validate_product_data n pr st c d br w).valid = true)
    (hex : ex ∈ s.products) (hexbiz : ex.business_id = bid)
    (hdup : lower ex.name
      = lower (validate_product_data n pr st c d br w).validated_data.name)
    (hone : s.products.countP (fun p => p.business_id == bid &&
        lower p.name == lower (validate_product_data n pr st c d br
          w).validated_data.name) = 1) :
    (add_product_handler s env bid n pr st c d br w).1.success = false ∧
    (add_product_handler s env bid n pr st c d br w).1.error_type
      = some "duplicate_product".data ∧
    (add_product_handler s env bid n pr st c d br w).2 = s ∧
    (∃ ex', (add_product_handler s env bid n pr st c d br
        w).1.existing_product = some ex' ∧ ex' ∈ s.products ∧
        ex'.business_id = bid ∧
        List.IsInfix
          (lower (validate_product_data n pr st c d br w).validated_data.name)
          (lower ex'.name)) ∧
    (add_product_handler s env bid n pr st c d br w).2.products.countP
        (fun p => p.business_id == bid && lower p.name ==
          lower (validate_product_data n pr st c d br
            w).validated_data.name) = 1 := by
  set vd := (validate_product_data n pr st c d br w).validated_data with hvd
  -- the duplicate-name lookup finds some existing product
  have hfind_some :
      (find_product_by_name s vd.name (some bid)).isSome = true := by
    rw [find_product_by_name]
    apply List.find?_isSome.mpr
    refine ⟨ex, List.mem_filter.mpr ⟨hex, ?_⟩, ?_⟩
    · simp [hexbiz]
    · simp [← hdup]
  obtain ⟨ex', hfind⟩ := Option.isSome_iff_exists.mp hfind_some
  have hex'props : ex' ∈ s.products ∧ ex'.business_id = bid := by
    have hmem := List.mem_of_find?_eq_some hfind
    have := List.mem_filter.mp hmem
    refine ⟨this.1, ?_⟩
    have hb := this.2
    simpa using hb
  have hex'inf :
      List.IsInfix (lower vd.name) (lower ex'.name) := by
    have := List.find?_some hfind
    simpa using this
  refine ⟨?_, ?_, ?_, ⟨ex', ?_, hex'props.1, hex'props.2, hex'inf⟩, ?_⟩ <;>
    simp [add_product_handler, hbiz, hvalid, ← hvd, hfind, hone]

/-- Witness for C9: adding `"usb-c cable 1m"` (a case-insensitive duplicate of
the stored `"USB-C Cable 1m"`) to business `b1` of `db0`. -/
theorem C9_witness :
    (add_product_handler db0 env0 "b1".data "usb-c cable 1m".data 800 12
        "Accessories".data "Durable braided charging cable".data "Acme".data
        "3 months".data).1.success = false ∧
    (add_product_handler db0 env0 "b1".data "usb-c cable 1m".data 800 12
        "Accessories".data "Durable braided charging cable".data "Acme".data
        "3 months".data).1.error_type = some "duplicate_product".data ∧
    (add_product_handler db0 env0 "b1".data "usb-c cable 1m".data 800 12
        "Accessories".data "Durable braided charging cable".data "Acme".data
        "3 months".data).2 = db0 ∧
    (∃ ex', (add_product_handler db0 env0 "b1".data "usb-c cable 1m".data 800 12
        "Accessories".data "Durable braided charging cable".data "Acme".data
        "3 months".data).1.existing_product = some ex' ∧ ex' ∈ db0.products ∧
        ex'.business_id = "b1".data ∧
        List.IsInfix
          (lower (validate_product_data "usb-c cable 1m".data 800 12
            "Accessories".data "Durable braided charging cable".data "Acme".data
            "3 months".data).validated_data.name)
          (lower ex'.name)) ∧
    (add_product_handler db0 env0 "b1".data "usb-c cable 1m".data 800 12
        "Accessories".data "Durable braided charging cable".data "Acme".data
        "3 months".data).2.products.countP
        (fun p => p.business_id == "b1".data && lower p.name ==
          lower (validate_product_data "usb-c cable 1m".data 800 12
            "Accessories".data "Durable braided charging cable".data "Acme".data
            "3 months".data).validated_data.name) = 1 :=
  C9_duplicate_product_rejected db0 env0 "b1".data biz1 "usb-c cable 1m".data
    800 12 "Accessories".data "Durable braided charging cable".data "Acme".data
    "3 months".data prod1 (by rfl) (by decide) (by decide) (by rfl) (by decide)
    (by decide)

/-! ## C3: price validation thresholds -/

/-- Counterexample to C3 as stated. At price 10,000,001 the middleware
validator `ProductValidator.validate_price` returns `valid=False` (a hard
failure, despite carrying a warning flag), not `valid=True` with a soft
warning; and at price 10 (below 50 but above 0) the vendor-side
`validate_product_data` yields no warning at all (its warning list is empty on
an otherwise clean record). -/
theorem C3_counterexample :
    (ProductValidator.validate_price (some 10000001)).valid = false ∧
    (ProductValidator.validate_price (some 10000001)).warning_flag = true ∧
    (validate_product_data "Widget Pro".data 10 5 "Electronics".data
        "A nice widget with many features".data "Acme".data
        "12 months".data).warnings = [] ∧
    (validate_product_data "Widget Pro".data 10 5 "Electronics".data
        "A nice widget with many features".data "Acme".data
        "12 months".data).valid = true := by
  refine ⟨by decide, by decide, by decide, by decide⟩

/-- C3 as amended. In `ProductValidator.validate_price`: a price above
10,000,000 is a hard failure (`valid=False`, flagged as a confirmation
warning); a price strictly between 0 and 50 is accepted with a warning;
non-positive and non-numeric prices are hard failures. In
`vendor_tools.validate_product_data` (the validator the add path actually
runs), a price above 10,000,000 is only a soft warning and contributes no
error. -/
theorem C3_amended_price_validation (q : ℚ) :
    (10000000 < q →
      (ProductValidator.validate_price (some q)).valid = false ∧
      (ProductValidator.validate_price (some q)).warning_flag = true) ∧
    (0 < q → q < 50 →
      (ProductValidator.validate_price (some q)).valid = true ∧
      (ProductValidator.validate_price (some q)).warning.isSome = true) ∧
    (q ≤ 0 → (ProductValidator.validate_price (some q)).valid = false) ∧
    (ProductValidator.validate_price none).valid = false ∧
    (10000000 < q → ∀ (n : Str) (st : Int) (c d br w : Str),
      "Price seems very high, please confirm".data
        ∈ (validate_product_data n q st c d br w).warnings ∧
      "Price must be greater than 0".data
        ∉ (validate_product_data n q st c d br w).errors) := by
  refine ⟨?_, ?_, ?_, by decide, ?_⟩
  · intro hq
    have h0 : ¬ q ≤ 0 := by linarith
    constructor <;> simp [ProductValidator.validate_price, h0, hq]
  · intro h0 h50
    have h0' : ¬ q ≤ 0 := by linarith
    have hbig : ¬ q > 10000000 := by linarith
    constructor <;> simp [ProductValidator.validate_price, h0', hbig, h50]
  · intro h0
    simp [ProductValidator.validate_price, h0]
  · intro hq n st c d br w
    have h0 : ¬ q ≤ 0 := by linarith
    constructor
    · simp [validate_product_data, h0, hq]
    · simp [validate_product_data, h0, hq]
      split_ifs <;> decide

/-- Witness for C3 as amended, at prices 20,000,000 and 10. -/
theorem C3_amended_witness :
    (ProductValidator.validate_price (some 20000000)).valid = false ∧
    (ProductValidator.validate_price (some 10)).valid = true ∧
    "Price seems very high, please confirm".data
      ∈ (validate_product_data "Widget Pro".data 20000000 5 "Electronics".data
          "A nice widget with many features".data "Acme".data
          "12 months".data).warnings :=
  ⟨((C3_amended_price_validation 20000000).1 (by norm_num)).1,
   ((C3_amended_price_validation 10).2.1 (by norm_num) (by norm_num)).1,
   (((C3_amended_price_validation 20000000).2.2.2.2 (by norm_num)
      "Widget Pro".data 5 "Electronics".data
      "A nice widget with many features".data "Acme".data
      "12 months".data)).1⟩

/-! ## C4: category validation on the add path -/

/-- Counterexample to C4 as stated. `"Foobar"` matches neither category list
(case-insensitively), yet `add_product_handler` succeeds — the add path runs
`vendor_tools.validate_product_data`, which treats an unknown category as a
warning, not a hard error: the product is persisted with category `Foobar`. -/
theorem C4_counterexample :
    lower "Foobar".data ∉ valid_categories.map lower ∧
    lower "Foobar".data ∉ ProductValidator.VALID_CATEGORIES.map lower ∧
    (add_product_handler dbAdd env0 "b1".data "Widget Pro".data 100 5
        "Foobar".data "A fine widget with features".data "Acme".data
        "12 months".data).1.success = true ∧
    (add_product_handler dbAdd env0 "b1".data "Widget Pro".data 100 5
        "Foobar".data "A fine widget with features".data "Acme".data
        "12 months".data).1.error_type = none ∧
    (add_product_handler dbAdd env0 "b1".data "Widget Pro".data 100 5
        "Foobar".data "A fine widget with features".data "Acme".data
        "12 months".data).2.products.length = dbAdd.products.length + 1 ∧
    category_warning "Foobar".data
      ∈ (add_product_handler dbAdd env0 "b1".data "Widget Pro".data 100 5
          "Foobar".data "A fine widget with features".data "Acme".data
          "12 months".data).1.warnings := by
  refine ⟨by decide, by decide, by decide, by decide, by decide, by decide⟩

/-- C4 as amended. The strict category rule lives in
`ProductValidator.validate_category` (validation middleware): a category not
case-insensitively matching `VALID_CATEGORIES` is a hard error carrying the
list of valid options. The add operation, however, validates through
`vendor_tools.validate_product_data`, where an unknown category only yields a
warning and never affects validity (only name, price and stock can produce
hard errors there; category/description/brand/warranty are soft-defaulted),
so an otherwise-valid add request with an unknown category succeeds. -/
theorem C4_amended_category_validation (c : Str) (h1 : c ≠ [])
    (h2 : strip c ≠ []) (h3 : strip c ∉ valid_categories)
    (h4 : lower (strip c) ∉ ProductValidator.VALID_CATEGORIES.map lower) :
    (ProductValidator.validate_category c).valid = false ∧
    (ProductValidator.validate_category c).suggestions
      = some ProductValidator.VALID_CATEGORIES ∧
    (∀ (n : Str) (pr : ℚ) (st : Int) (d br w : Str),
      category_warning c ∈ (validate_product_data n pr st c d br w).warnings) ∧
    (∀ (n : Str) (pr : ℚ) (st : Int) (d br w : Str),
      (validate_product_data n pr st c d br w).errors
        = (validate_product_data n pr st "Electronics".data d br w).errors) ∧
    (∀ (s : DB) (env : Env) (bid : Str) (b : Business) (n : Str) (pr : ℚ)
        (st : Int) (d br w : Str),
      get_business s bid = some b →
      (validate_product_data n pr st c d br w).valid = true →
      find_product_by_name s
        (validate_product_data n pr st c d br w).validated_data.name
        (some bid) = none →
      (add_product_handler s env bid n pr st c d br w).1.success = true ∧
      (add_product_handler s env bid n pr st c d br w).2.products.length
        = s.products.length + 1) := by
  have hnot : ¬ ∃ a ∈ ProductValidator.VALID_CATEGORIES,
      lower a = lower (strip c) := by
    simpa using h4
  refine ⟨?_, ?_, ?_, ?_, ?_⟩
  · simp [ProductValidator.validate_category, h1, hnot]
  · simp [ProductValidator.validate_category, h1, hnot]
  · intro n pr st d br w
    simp [validate_product_data, h1, h2, h3]
  · intro n pr st d br w
    have hE2 : strip "Electronics".data ≠ [] := by decide
    simp [validate_product_data, h1, h2, hE2]
  · intro s env bid b n pr st d br w hbiz hvalid hfind
    constructor
    · simp [add_product_handler, hbiz, hvalid, hfind]
    · simp [add_product_handler, hbiz, hvalid, hfind, add_product]

/-- Witness for C4 as amended, at category `"Foobar"` over the empty-catalog
store `dbAdd`. -/
theorem C4_amended_witness :
    (ProductValidator.validate_category "Foobar".data).valid = false ∧
    (add_product_handler dbAdd env0 "b1".data "Widget Pro".data 100 5
        "Foobar".data "A fine widget with features".data "Acme".data
        "12 months".data).1.success = true :=
  ⟨(C4_amended_category_validation "Foobar".data (by decide) (by decide)
      (by decide) (by decide)).1,
   ((C4_amended_category_validation "Foobar".data (by decide) (by decide)
      (by decide) (by decide)).2.2.2.2 dbAdd env0 "b1".data biz1
      "Widget Pro".data 100 5 "A fine widget with features".data "Acme".data
      "12 months".data (by rfl) (by decide) (by decide)).1⟩

/-! ## C5: cross-business product resolution -/

/-- Counterexample to C5 as stated. The identifier `"42"` is all digits and
matches the id of a product stored under business `b2`, yet resolving it
against business `b1` returns `exists=True`: after discarding the
cross-business ID hit, the resolver falls back to case-insensitive substring
*name* lookup, which finds `b1`'s product `"Model 42"`. -/
theorem C5_counterexample :
    isdigit "42".data = true ∧
    get_product_by_id dbC5 "42".data = some prod42other ∧
    prod42other.business_id ≠ "b1".data ∧
    (validate_product_reference dbC5 "42".data "b1".data).«exists» = true ∧
    (validate_product_reference dbC5 "42".data "b1".data).product
      = some prodModel42 := by
  refine ⟨by decide, by decide, by decide, by decide, by decide⟩

/-- C5 as amended. A numeric identifier whose ID match belongs to a different
business is discarded (cross-business isolation), and the resolver then falls
back to case-insensitive substring name lookup within the requested business;
only when that also fails does it behave as not-found, returning
`exists=False` with a non-null context populated from the requested business
(its active products, its categories, its display name) and the original
search term. -/
theorem C5_amended_cross_business (s : DB) (ident bid : Str) (p : Product)
    (hdig : isdigit ident = true)
    (hbyid : get_product_by_id s ident = some p)
    (hcross : p.business_id ≠ bid)
    (hname : find_product_by_name s ident (some bid) = none) :
    (validate_product_reference s ident bid).«exists» = false ∧
    (validate_product_reference s ident bid).product = none ∧
    (validate_product_reference s ident bid).context
      = some (get_contextual_product_info s bid ident) ∧
    (validate_product_reference s ident bid).search_term = some ident ∧
    (get_contextual_product_info s bid ident).user_search_term = ident ∧
    (get_contextual_product_info s bid ident).business_id = bid := by
  refine ⟨?_, ?_, ?_, ?_, by simp [get_contextual_product_info],
    by simp [get_contextual_product_info]⟩ <;>
    simp [validate_product_reference, hdig, hbyid, hcross, hname]

/-- Witness for C5 as amended: in `dbC5`, the identifier `"9"` is the id of a
`b2` product, and `"9"` occurs in no `b1` product name, so resolving it
against `b1` is a populated-context not-found. -/
theorem C5_amended_witness :
    (validate_product_reference dbC5 "9".data "b1".data).«exists» = false ∧
    (validate_product_reference dbC5 "9".data "b1".data).product = none ∧
    (validate_product_reference dbC5 "9".data "b1".data).context
      = some (get_contextual_product_info dbC5 "b1".data "9".data) ∧
    (validate_product_reference dbC5 "9".data "b1".data).search_term
      = some "9".data ∧
    (get_contextual_product_info dbC5 "b1".data "9".data).user_search_term
      = "9".data ∧
    (get_contextual_product_info dbC5 "b1".data "9".data).business_id
      = "b1".data :=
  C5_amended_cross_business dbC5 "9".data "b1".data prod9other
    (by decide) (by decide) (by decide) (by decide)

/-! ## C6: Kenyan phone normalization -/

/-- Every successful normalization output consists of separator-free
characters and starts with `+254`. -/
theorem validate_kenyan_phone_ok_shape (ph r : Str)
    (h : MPesaSimulator.validate_kenyan_phone ph = .ok r) :
    (∀ c ∈ r, (!(c == ' ' || c == '-')) = true) ∧ r.take 4 = "+254".data := by
  unfold MPesaSimulator.validate_kenyan_phone at h
  by_cases h0 : ph = []
  · rw [if_pos h0] at h; simp at h
  · rw [if_neg h0] at h
    have hall : ∀ c ∈ ph.filter (fun c => !(c == ' ' || c == '-')),
        (!(c == ' ' || c == '-')) = true := fun c hc => (List.mem_filter.mp hc).2
    dsimp only at h
    split_ifs at h with h1 h2 h3
    · -- 07/01 prefix: r = "+254" ++ p.drop 1
      rw [Except.ok.injEq] at h
      subst h
      refine ⟨?_, List.take_left' (by decide)⟩
      intro c hc
      rcases List.mem_append.mp hc with hc | hc
      · fin_cases hc <;> decide
      · exact hall c (List.mem_of_mem_drop hc)
    · -- 254 prefix: r = '+' :: p
      rw [Except.ok.injEq] at h
      subst h
      constructor
      · intro c hc
        rcases List.mem_cons.mp hc with rfl | hc
        · decide
        · exact hall c hc
      · simpa [List.take_succ_cons] using h2
    · -- +254 prefix: r = p
      rw [Except.ok.injEq] at h
      subst h
      exact ⟨hall, h3⟩

/-- C6. Kenyan phone normalization is idempotent on its outputs; the three
accepted formats `0712345678`, `254712345678`, `+254712345678` all normalize
to `+254712345678`; the non-Kenyan string `12345` is rejected, and at the
payment boundary (`validate_payment_request` on an existing, unpaid order)
that rejection surfaces as `error_type="invalid_phone"`. -/
theorem C6_phone_normalization :
    (∀ ph r : Str, MPesaSimulator.validate_kenyan_phone ph = .ok r →
        MPesaSimulator.validate_kenyan_phone r = .ok r) ∧
    MPesaSimulator.validate_kenyan_phone "0712345678".data
      = .ok "+254712345678".data ∧
    MPesaSimulator.validate_kenyan_phone "254712345678".data
      = .ok "+254712345678".data ∧
    MPesaSimulator.validate_kenyan_phone "+254712345678".data
      = .ok "+254712345678".data ∧
    MPesaSimulator.validate_kenyan_phone "12345".data
      = .error "Invalid Kenyan phone number format".data ∧
    (∀ (s : DB) (oid : Str) (o : Order),
        get_order_by_id s oid = some o →
        o.payment_status ≠ "completed".data →
        validate_payment_request s oid "12345".data
          = .invalid "invalid_phone".data none) := by
  refine ⟨?_, rfl, rfl, rfl, rfl, ?_⟩
  · intro ph r h
    obtain ⟨hall, htake⟩ := validate_kenyan_phone_ok_shape ph r h
    rcases r with _ | ⟨a, _ | ⟨b, _ | ⟨c, _ | ⟨e, t⟩⟩⟩⟩ <;> simp at htake
    obtain ⟨rfl, rfl, rfl, rfl⟩ := htake
    have hfilter : List.filter (fun c => !(c == ' ' || c == '-'))
        ('+' :: '2' :: '5' :: '4' :: t) = '+' :: '2' :: '5' :: '4' :: t :=
      List.filter_eq_self.mpr hall
    unfold MPesaSimulator.validate_kenyan_phone
    rw [if_neg (by simp)]
    simp only [hfilter]
    rw [if_neg (by simp), if_neg (by simp), if_pos (by simp)]
  · intro s oid o horder hnp
    have herr : MPesaSimulator.validate_kenyan_phone "12345".data
        = .error "Invalid Kenyan phone number format".data := rfl
    simp [validate_payment_request, horder, hnp, herr]

/-- Witness for C6: idempotence applied at the concrete output of normalizing
`0712345678`, and the boundary rejection applied at order `ORD002` of `db0`. -/
theorem C6_witness :
    MPesaSimulator.validate_kenyan_phone "+254712345678".data
      = .ok "+254712345678".data ∧
    validate_payment_request db0 "ORD002".data "12345".data
      = .invalid "invalid_phone".data none :=
  ⟨C6_phone_normalization.1 "0712345678".data "+254712345678".data rfl,
   C6_phone_normalization.2.2.2.2.2 db0 "ORD002".data ord2 (by rfl) (by decide)⟩

/-! ## C7: stock is never driven negative -/

/-- C7. Non-negative stock is an invariant of the three catalog write
operations (add, update, update-stock), and each of them rejects a negative
stock value with a validation error, leaving the store unchanged (for add,
against an existing business; for update, against a resolvable product;
update-stock rejects unconditionally before resolving). -/
theorem C7_stock_never_negative :
    (∀ (s : DB) (env : Env) (bid n : Str) (pr : ℚ) (st : Int) (c d br w : Str),
      (∀ p ∈ s.products, 0 ≤ p.stock) →
      ∀ p ∈ (add_product_handler s env bid n pr st c d br w).2.products,
        0 ≤ p.stock) ∧
    (∀ (s : DB) (env : Env) (bid ident : Str) (u : Updates),
      (∀ p ∈ s.products, 0 ≤ p.stock) →
      ∀ p ∈ (update_product_handler s env bid ident u).2.products,
        0 ≤ p.stock) ∧
    (∀ (s : DB) (env : Env) (bid ident : Str) (ns : Int),
      (∀ p ∈ s.products, 0 ≤ p.stock) →
      ∀ p ∈ (update_stock_handler s env bid ident ns).2.products,
        0 ≤ p.stock) ∧
    (∀ (s : DB) (env : Env) (bid : Str) (b : Business) (n : Str) (pr : ℚ)
        (st : Int) (c d br w : Str), st < 0 → get_business s bid = some b →
      (add_product_handler s env bid n pr st c d br w).1.success = false ∧
      (add_product_handler s env bid n pr st c d br w).1.error_type
        = some "validation_error".data ∧
      "Stock cannot be negative".data
        ∈ (add_product_handler s env bid n pr st c d br w).1.validation_errors ∧
      (add_product_handler s env bid n pr st c d br w).2 = s) ∧
    (∀ (s : DB) (env : Env) (bid ident : Str) (u : Updates) (m : Int)
        (p0 : Product), u.stock = some m → m < 0 →
      (validate_product_reference s ident bid).product = some p0 →
      (update_product_handler s env bid ident u).1.success = false ∧
      (update_product_handler s env bid ident u).1.error_type
        = some "validation_error".data ∧
      (update_product_handler s env bid ident u).2 = s) ∧
    (∀ (s : DB) (env : Env) (bid ident : Str) (ns : Int), ns < 0 →
      (update_stock_handler s env bid ident ns).1.success = false ∧
      (update_stock_handler s env bid ident ns).1.error_type
        = some "validation_error".data ∧
      (update_stock_handler s env bid ident ns).2 = s) := by
  -- update preserves the invariant
  have hupd : ∀ (s : DB) (env : Env) (bid ident : Str) (u : Updates),
      (∀ p ∈ s.products, 0 ≤ p.stock) →
      ∀ p ∈ (update_product_handler s env bid ident u).2.products,
        0 ≤ p.stock := by
    intro s env bid ident u hinv p hp
    rw [update_product_handler] at hp
    rcases href : (validate_product_reference s ident bid).product with _ | prod
    · simp only [href] at hp
      exact hinv p hp
    · simp only [href] at hp
      by_cases herrs : (update_validation_errors u).isEmpty
      · by_cases hemp : (valid_updates_of u).isEmpty
        · simp only [herrs, hemp, Bool.not_true, Bool.false_eq_true,
            if_false, if_true] at hp
          exact hinv p hp
        · simp only [herrs, hemp, Bool.not_true, Bool.false_eq_true,
            if_false, if_true] at hp
          rw [update_product] at hp
          by_cases hfound :
              (s.products.find? (fun q => q.id == prod.id)).isSome
          · simp only [hfound, if_true] at hp
            rcases mem_updateFirstProduct hp with hmem | ⟨q, hq, rfl⟩
            · exact hinv p hmem
            · rcases hst : (validate_update_stock u.stock).1 with _ | m
              · simpa [applyUpdates, valid_updates_of, hst]
                  using hinv q hq
              · simpa [applyUpdates, valid_updates_of, hst]
                  using validate_update_stock_nonneg hst
          · simp only [hfound, Bool.false_eq_true, if_false] at hp
            exact hinv p hp
      · simp only [herrs, Bool.not_false, if_true] at hp
        exact hinv p hp
  -- add preserves the invariant
  have hadd : ∀ (s : DB) (env : Env) (bid n : Str) (pr : ℚ) (st : Int)
      (c d br w : Str), (∀ p ∈ s.products, 0 ≤ p.stock) →
      ∀ p ∈ (add_product_handler s env bid n pr st c d br w).2.products,
        0 ≤ p.stock := by
    intro s env bid n pr st c d br w hinv p hp
    rw [add_product_handler] at hp
    rcases hbiz : get_business s bid with _ | b
    · simp only [hbiz] at hp
      exact hinv p hp
    · simp only [hbiz] at hp
      by_cases hval : (validate_product_data n pr st c d br w).valid
      · rcases hfind : find_product_by_name s
            (validate_product_data n pr st c d br w).validated_data.name
            (some bid) with _ | ex
        · simp only [hval, hfind, Bool.not_true, Bool.false_eq_true,
            if_false] at hp
          rw [add_product] at hp
          simp only [List.mem_append] at hp
          rcases hp with hmem | hnew
          · exact hinv p hmem
          · rw [List.mem_singleton] at hnew
            subst hnew
            exact stock_nonneg_of_valid hval
        · simp only [hval, hfind, Bool.not_true, Bool.false_eq_true,
            if_false] at hp
          exact hinv p hp
      · rw [Bool.not_eq_true] at hval
        simp only [hval, Bool.not_false, if_true] at hp
        exact hinv p hp
  -- update-stock preserves the invariant
  have hus : ∀ (s : DB) (env : Env) (bid ident : Str) (ns : Int),
      (∀ p ∈ s.products, 0 ≤ p.stock) →
      ∀ p ∈ (update_stock_handler s env bid ident ns).2.products,
        0 ≤ p.stock := by
    intro s env bid ident ns hinv p hp
    rw [update_stock_handler] at hp
    by_cases hns : ns < 0
    · simp only [if_pos hns] at hp
      exact hinv p hp
    · simp only [if_neg hns] at hp
      exact hupd s env bid ident { stock := some ns } hinv p hp
  refine ⟨hadd, hupd, hus, ?_, ?_, ?_⟩
  · -- add rejects negative stock
    intro s env bid b n pr st c d br w hst hbiz
    have hval : (validate_product_data n pr st c d br w).valid = false := by
      rcases hv : (validate_product_data n pr st c d br w).valid with _ | _
      · rfl
      · exact absurd (stock_nonneg_of_valid hv) (by omega)
    have hmem : "Stock cannot be negative".data
        ∈ (validate_product_data n pr st c d br w).errors := by
      simp [validate_product_data, hst]
    refine ⟨?_, ?_, ?_, ?_⟩ <;>
      simp [add_product_handler, hbiz, hval, hmem]
  · -- update rejects negative stock
    intro s env bid ident u m p0 hstock hm href
    have hst2 : (validate_update_stock u.stock).2
        = ["Stock cannot be negative".data] := by
      rw [hstock, validate_update_stock, if_pos hm]
    have herrs : (update_validation_errors u).isEmpty = false := by
      simp [update_validation_errors, hst2]
    refine ⟨?_, ?_, ?_⟩ <;>
      simp [update_product_handler, href, herrs]
  · -- update-stock rejects negative stock
    intro s env bid ident ns hns
    refine ⟨?_, ?_, ?_⟩ <;> simp [update_stock_handler, hns]

/-- Witness for C7 at `db0`: updating product `1` of business `b1` to stock
`-5` is rejected (validation error, store unchanged), and the preservation
parts applied at that call keep product `1`'s stock non-negative. -/
theorem C7_witness :
    ((update_stock_handler db0 env0 "b1".data "1".data (-5)).1.success
      = false ∧
    (update_stock_handler db0 env0 "b1".data "1".data (-5)).1.error_type
      = some "validation_error".data ∧
    (update_stock_handler db0 env0 "b1".data "1".data (-5)).2 = db0) ∧
    0 ≤ prod1.stock :=
  ⟨C7_stock_never_negative.2.2.2.2.2 db0 env0 "b1".data "1".data (-5)
    (by decide),
   C7_stock_never_negative.2.2.1 db0 env0 "b1".data "1".data (-5)
    (by decide) prod1 (by decide)⟩

end Sasabot
